import Mathlib

/-
Verification of the parameter-block registry and residual-assembly engine of
`industrial_extrinsic_cal` against its design specification.

The definitions below are a shallow embedding of
`src/industrial_extrinsic_cal/src/calibration_job_definition.cpp`.
Machine doubles carry no arithmetic in any of the verified properties, so they
are embedded as `Int` values (only data plumbing is at stake).  Raw C pointers
to parameter blocks (`P_BLOCK`, a `double*` into the block arena) are embedded
as `Option Nat`: `some b` is a pointer to the arena block with identity `b`,
`none` is a null pointer (a failed registry lookup).

The registry class `CeresBlocks` is implemented outside this translation unit;
its operations are modelled from the specification (section 4.1) and each such
definition is marked `Modelled from the spec:` in its doc comment.  Every other
definition is translated directly from the source file.
-/

set_option autoImplicit false

namespace IndustrialExtrinsicCal

/-- A 3D point of a target, in the target's own frame.  Coordinates are parsed
from yaml floats; embedded as `Int` (no arithmetic is performed on them). -/
structure Point3d where
  x : Int
  y : Int
  z : Int
deriving DecidableEq, Repr, Inhabited

/-- A 6-DOF pose: 3 angle-axis rotation components and 3 position components. -/
structure Pose6d where
  ax : Int
  ay : Int
  az : Int
  x : Int
  y : Int
  z : Int
deriving DecidableEq, Repr, Inhabited

/-- A calibration target: name, movement flag, checkerboard shape, seed pose
and the ordered list of its 3D points (point id = index in `pts`).
Default field values model the value-initialized `Target` produced by
`make_shared<Target>()` in `CalibrationJob::load`. -/
structure Target where
  target_name : String := ""
  is_moving : Bool := false
  pattern_rows : Nat := 0
  pattern_cols : Nat := 0
  pose : Pose6d := default
  num_points : Nat := 0
  pts : List Point3d := []
deriving DecidableEq, Repr, Inhabited

/-- A raw pixel observation returned by a camera observer: the observed target,
the point id within that target, and the image location. -/
structure Observation where
  target : Target
  point_id : Nat
  image_loc_x : Int
  image_loc_y : Int
deriving DecidableEq, Repr, Inhabited

/-- A camera together with the behaviour of its external observer:
`observationsDone k` is the value the `observationsDone()` poll returns the
`k`-th time the busy-wait loop asks, and `observations` is what
`getObservations` hands back once the wait has finished. -/
structure Camera where
  camera_name : String
  is_moving : Bool
  observationsDone : Nat → Bool
  observations : List Observation

/-- One observation scene: its id and the cameras active in it.  The
observation-command list only configures the external observers (`addTarget`
calls on them) and has no effect on the registry or the data-point list, so it
is not carried here. -/
structure ObservationScene where
  scene_id : Nat
  cameras_in_scene : List Camera

/-- Modelled from the spec: the Parameter-Block Registry (`CeresBlocks`, whose
implementation is outside the translated source file).  It owns all parameter
blocks, keyed by (role, entity name, optional scene id).  A block is a `Nat`
identity into the arena; `nextId` is the next fresh identity, so a block is
never reallocated once created. -/
structure CeresBlocks where
  intrinsics : List (String × Nat)
  staticCameraExtrinsics : List (String × Nat)
  movingCameraExtrinsics : List (String × Nat × Nat)
  staticTargetPoses : List (String × Nat)
  movingTargetPoses : List (String × Nat × Nat)
  targetPoints : List (String × Nat × Nat)
  nextId : Nat
deriving DecidableEq, Repr

/-- Modelled from the spec: `clearCamerasTargets()` resets the registry to
empty, invalidating all previously issued block handles. -/
def clearCamerasTargets : CeresBlocks :=
  { intrinsics := []
    staticCameraExtrinsics := []
    movingCameraExtrinsics := []
    staticTargetPoses := []
    movingTargetPoses := []
    targetPoints := []
    nextId := 0 }

/-- Lookup in a name-keyed block list. -/
def lookupByName (l : List (String × Nat)) (n : String) : Option Nat :=
  match l with
  | [] => none
  | p :: rest => if p.1 = n then some p.2 else lookupByName rest n

/-- Lookup in a block list keyed by a name and a second integer key
(a scene id, or a point id for target-point blocks). -/
def lookupByNameKey (l : List (String × Nat × Nat)) (n : String) (k : Nat) : Option Nat :=
  match l with
  | [] => none
  | p :: rest => if p.1 = n ∧ p.2.1 = k then some p.2.2 else lookupByNameKey rest n k

/-- Modelled from the spec: whether the registry has already seen a target of
this name (point-position blocks are created only the first time a target name
is seen). -/
def targetSeen (blocks : CeresBlocks) (n : String) : Bool :=
  blocks.targetPoints.any fun p => p.1 == n

/-- Modelled from the spec: allocate one point-position block per point id of a
newly seen target name.  Point blocks are keyed by (target name, point id)
only — never by scene. -/
def allocTargetPoints (n : String) : List Nat → CeresBlocks → CeresBlocks
  | [], blocks => blocks
  | i :: rest, blocks =>
      allocTargetPoints n rest
        { blocks with
          targetPoints := (n, i, blocks.nextId) :: blocks.targetPoints
          nextId := blocks.nextId + 1 }

/-- Modelled from the spec: `addStaticCamera(cam)` creates the intrinsics block
(keyed by name) if absent and the shared extrinsics block (keyed by name) if
absent; a no-op when they already exist. -/
def addStaticCamera (blocks : CeresBlocks) (camera : Camera) : CeresBlocks :=
  let b1 :=
    if (lookupByName blocks.intrinsics camera.camera_name).isSome then blocks
    else
      { blocks with
        intrinsics := (camera.camera_name, blocks.nextId) :: blocks.intrinsics
        nextId := blocks.nextId + 1 }
  if (lookupByName b1.staticCameraExtrinsics camera.camera_name).isSome then b1
  else
    { b1 with
      staticCameraExtrinsics := (camera.camera_name, b1.nextId) :: b1.staticCameraExtrinsics
      nextId := b1.nextId + 1 }

/-- Modelled from the spec: `addMovingCamera(cam, scene_id)` creates the
intrinsics block (keyed by name alone) if absent and the extrinsics block
private to `scene_id` (keyed by name and scene) if absent. -/
def addMovingCamera (blocks : CeresBlocks) (camera : Camera) (scene_id : Nat) : CeresBlocks :=
  let b1 :=
    if (lookupByName blocks.intrinsics camera.camera_name).isSome then blocks
    else
      { blocks with
        intrinsics := (camera.camera_name, blocks.nextId) :: blocks.intrinsics
        nextId := blocks.nextId + 1 }
  if (lookupByNameKey b1.movingCameraExtrinsics camera.camera_name scene_id).isSome then b1
  else
    { b1 with
      movingCameraExtrinsics :=
        (camera.camera_name, scene_id, b1.nextId) :: b1.movingCameraExtrinsics
      nextId := b1.nextId + 1 }

/-- Modelled from the spec: `addStaticTarget(t)` creates the shared pose block
(keyed by name) if absent, and one point-position block per point id the first
time that target name is seen. -/
def addStaticTarget (blocks : CeresBlocks) (t : Target) : CeresBlocks :=
  let b1 :=
    if (lookupByName blocks.staticTargetPoses t.target_name).isSome then blocks
    else
      { blocks with
        staticTargetPoses := (t.target_name, blocks.nextId) :: blocks.staticTargetPoses
        nextId := blocks.nextId + 1 }
  if targetSeen b1 t.target_name then b1
  else allocTargetPoints t.target_name (List.range t.pts.length) b1

/-- Modelled from the spec: `addMovingTarget(t, scene_id)` creates the pose
block private to `scene_id` (keyed by name and scene) if absent, and one
point-position block per point id the first time that target name is seen
(point blocks are never scene-scoped). -/
def addMovingTarget (blocks : CeresBlocks) (t : Target) (scene_id : Nat) : CeresBlocks :=
  let b1 :=
    if (lookupByNameKey blocks.movingTargetPoses t.target_name scene_id).isSome then blocks
    else
      { blocks with
        movingTargetPoses := (t.target_name, scene_id, blocks.nextId) :: blocks.movingTargetPoses
        nextId := blocks.nextId + 1 }
  if targetSeen b1 t.target_name then b1
  else allocTargetPoints t.target_name (List.range t.pts.length) b1

/-- Modelled from the spec: intrinsics lookup for a static camera, keyed by
camera name alone. -/
def getStaticCameraParameterBlockIntrinsics (blocks : CeresBlocks) (n : String) : Option Nat :=
  lookupByName blocks.intrinsics n

/-- Modelled from the spec: intrinsics lookup for a moving camera, also keyed
by camera name alone (the same shared store as for static cameras). -/
def getMovingCameraParameterBlockIntrinsics (blocks : CeresBlocks) (n : String) : Option Nat :=
  lookupByName blocks.intrinsics n

/-- Modelled from the spec: extrinsics lookup for a static camera, keyed by
camera name alone. -/
def getStaticCameraParameterBlockExtrinsics (blocks : CeresBlocks) (n : String) : Option Nat :=
  lookupByName blocks.staticCameraExtrinsics n

/-- Modelled from the spec: extrinsics lookup for a moving camera, keyed by
camera name and scene id. -/
def getMovingCameraParameterBlockExtrinsics (blocks : CeresBlocks) (n : String)
    (scene_id : Nat) : Option Nat :=
  lookupByNameKey blocks.movingCameraExtrinsics n scene_id

/-- Modelled from the spec: pose lookup for a static target, keyed by name. -/
def getStaticTargetPoseParameterBlock (blocks : CeresBlocks) (n : String) : Option Nat :=
  lookupByName blocks.staticTargetPoses n

/-- Modelled from the spec: pose lookup for a moving target, keyed by name and
scene id. -/
def getMovingTargetPoseParameterBlock (blocks : CeresBlocks) (n : String)
    (scene_id : Nat) : Option Nat :=
  lookupByNameKey blocks.movingTargetPoses n scene_id

/-- Modelled from the spec: point-position lookup for a static target, keyed by
(target name, point id). -/
def getStaticTargetPointParameterBlock (blocks : CeresBlocks) (n : String)
    (pnt_id : Nat) : Option Nat :=
  lookupByNameKey blocks.targetPoints n pnt_id

/-- Modelled from the spec: point-position lookup for a moving target, keyed by
(target name, point id) — the same scene-less store as for static targets. -/
def getMovingTargetPointParameterBlock (blocks : CeresBlocks) (n : String)
    (pnt_id : Nat) : Option Nat :=
  lookupByNameKey blocks.targetPoints n pnt_id

/-! ### Observation collection (`CalibrationJob::runObservations`, lines 38-139) -/

/-- One entry of the run-wide observation data point list, mirroring the
`ObservationDataPoint` constructor call at lines 132-133 of the source
(camera name, target name, scene id, intrinsics, extrinsics, point id,
target pose, point position, observed pixel). -/
structure ObservationDataPoint where
  camera_name : String
  target_name : String
  scene_id : Nat
  camera_intrinsics : Option Nat
  camera_extrinsics : Option Nat
  point_id : Nat
  target_pose : Option Nat
  point_position : Option Nat
  image_x : Int
  image_y : Int
deriving DecidableEq, Repr

/-- The per-camera registration and block retrieval of
`CalibrationJob::runObservations` (source lines 93-107): register the camera as
moving or static by its flag, then retrieve its intrinsics block (keyed by name
alone in both branches) and its extrinsics block (keyed by name and scene id
when moving, by name alone when static).  Returns the updated registry, the
intrinsics handle and the extrinsics handle. -/
def processCamera (blocks : CeresBlocks) (camera : Camera) (scene_id : Nat) :
    CeresBlocks × Option Nat × Option Nat :=
  if camera.is_moving then
    let b := addMovingCamera blocks camera scene_id
    (b, getMovingCameraParameterBlockIntrinsics b camera.camera_name,
        getMovingCameraParameterBlockExtrinsics b camera.camera_name scene_id)
  else
    let b := addStaticCamera blocks camera
    (b, getStaticCameraParameterBlockIntrinsics b camera.camera_name,
        getStaticCameraParameterBlockExtrinsics b camera.camera_name)

/-- The per-observation target registration and block retrieval of
`CalibrationJob::runObservations` (source lines 116-131): register the target,
scoped to the current scene when moving, then retrieve its pose block (keyed by
name and scene id when moving, name alone when static) and the observed point's
position block (keyed by target name and point id in both branches — never by
scene id).  Returns the updated registry, the pose handle and the point
handle. -/
def processObservation (blocks : CeresBlocks) (scene_id : Nat) (observation : Observation) :
    CeresBlocks × Option Nat × Option Nat :=
  if observation.target.is_moving then
    let b := addMovingTarget blocks observation.target scene_id
    (b, getMovingTargetPoseParameterBlock b observation.target.target_name scene_id,
        getMovingTargetPointParameterBlock b observation.target.target_name observation.point_id)
  else
    let b := addStaticTarget blocks observation.target
    (b, getStaticTargetPoseParameterBlock b observation.target.target_name,
        getStaticTargetPointParameterBlock b observation.target.target_name observation.point_id)

/-- The busy-wait `while (!camera->camera_observer_->observationsDone());` at
source lines 90-91, indexed by fuel: `k` counts the polls made so far, and the
result is `true` exactly when some poll among the next `fuel` returns `true`.
The loop in the source has no timeout, so its divergence is modelled by this
returning `false` for every fuel. -/
def observationsDoneWait (done : Nat → Bool) : Nat → Nat → Bool
  | _, 0 => false
  | k, fuel + 1 => if done k then true else observationsDoneWait done (k + 1) fuel

/-- The inner loop of `runObservations` over one camera's raw observations
(source lines 114-135): resolve the target's blocks, build an
`ObservationDataPoint` and append it to the run-wide list. -/
def processObsList (blocks : CeresBlocks) (acc : List ObservationDataPoint)
    (camera_name : String) (scene_id : Nat) (intrinsics extrinsics : Option Nat) :
    List Observation → CeresBlocks × List ObservationDataPoint
  | [] => (blocks, acc)
  | observation :: rest =>
      let r := processObservation blocks scene_id observation
      let odp : ObservationDataPoint :=
        { camera_name := camera_name
          target_name := observation.target.target_name
          scene_id := scene_id
          camera_intrinsics := intrinsics
          camera_extrinsics := extrinsics
          point_id := observation.point_id
          target_pose := r.2.1
          point_position := r.2.2
          image_x := observation.image_loc_x
          image_y := observation.image_loc_y }
      processObsList r.1 (acc ++ [odp]) camera_name scene_id intrinsics extrinsics rest

/-- Handling of one camera once its wait has finished (source lines 93-135):
register it, fetch its block handles, get its observations and process them. -/
def runCameraObservations (blocks : CeresBlocks) (acc : List ObservationDataPoint)
    (scene_id : Nat) (camera : Camera) : CeresBlocks × List ObservationDataPoint :=
  let r := processCamera blocks camera scene_id
  processObsList r.1 acc camera.camera_name scene_id r.2.1 r.2.2 camera.observations

/-- The `for each camera in scene` loop of `runObservations` (source lines
86-136).  Each camera is first waited on; if its `observationsDone()` never
returns `true` within the fuel, the unbounded busy-wait of the source never
exits, which is modelled by the whole run producing `none`. -/
def runCamerasFuel (fuel : Nat) (scene_id : Nat) :
    List Camera → CeresBlocks → List ObservationDataPoint →
    Option (CeresBlocks × List ObservationDataPoint)
  | [], blocks, acc => some (blocks, acc)
  | camera :: rest, blocks, acc =>
      if observationsDoneWait camera.observationsDone 0 fuel then
        let r := runCameraObservations blocks acc scene_id camera
        runCamerasFuel fuel scene_id rest r.1 r.2
      else none

/-- The `for each scene` loop of `runObservations` (source lines 44-137). -/
def runScenesFuel (fuel : Nat) :
    List ObservationScene → CeresBlocks → List ObservationDataPoint →
    Option (CeresBlocks × List ObservationDataPoint)
  | [], blocks, acc => some (blocks, acc)
  | scene :: rest, blocks, acc =>
      match runCamerasFuel fuel scene.scene_id scene.cameras_in_scene blocks acc with
      | none => none
      | some r => runScenesFuel fuel rest r.1 r.2

/-- `CalibrationJob::runObservations` (source lines 38-139): clear the
registry, then process every scene, accumulating the run-wide
`ObservationDataPoint` list.  `some (blocks, odps)` models the source function
returning `true` with the registry and list in the stated final states;
`none` models the function never returning because some busy-wait at lines
90-91 did not finish within the fuel. -/
def runObservationsFuel (scene_list : List ObservationScene) (fuel : Nat) :
    Option (CeresBlocks × List ObservationDataPoint) :=
  runScenesFuel fuel scene_list clearCamerasTargets []

/-- Total number of raw observations delivered across all scenes and cameras of
a run. -/
def totalObservations (scene_list : List ObservationScene) : Nat :=
  (scene_list.map fun scene =>
    (scene.cameras_in_scene.map fun camera => camera.observations.length).sum).sum

/-! ### Residual assembly (`CalibrationJob::runOptimization`, lines 416-501) -/

/-- `ceres::Solver::Options::LinearSolverType` values used by the source. -/
inductive LinearSolverType where
  | DENSE_SCHUR
  | SPARSE_NORMAL_CHOLESKY
deriving DecidableEq, Repr

/-- The solver options set up at source lines 489-492. -/
structure SolverOptions where
  linear_solver_type : LinearSolverType
  minimizer_progress_to_stdout : Bool
  max_num_iterations : Nat
deriving DecidableEq, Repr

/-- The summary an invocation of the external solver would report. -/
structure SolverSummary where
  converged : Bool
deriving DecidableEq, Repr, Inhabited

/-- The options value constructed by `runOptimization` (source lines
489-492). -/
def runOptimizationOptions : SolverOptions :=
  { linear_solver_type := LinearSolverType.DENSE_SCHUR
    minimizer_progress_to_stdout := true
    max_num_iterations := 1000 }

/-- Dereference of a `P_BLOCK` pointer at an index, `p[i]` in the source.  The
valuation `v` gives the current contents of the block arena; reading through a
null pointer yields an unspecified value, fixed here as `0`. -/
def deref (v : Nat → Nat → Int) : Option Nat → Nat → Int
  | some b, i => v b i
  | none, _ => 0

/-- One residual block as submitted by `problem_.AddResidualBlock` at source
line 472: the constants baked into the
`TargetCameraReprjErrorNoDistortion::Create` cost function (source lines
447-465) and the parameter blocks bound as solver variables. -/
structure Residual where
  image_x : Int
  image_y : Int
  focal_length_x : Int
  focal_length_y : Int
  center_pnt_x : Int
  center_pnt_y : Int
  point_x : Int
  point_y : Int
  point_z : Int
  parameterBlocks : List (Option Nat)
deriving DecidableEq, Repr

/-- The body of the residual-assembly loop (source lines 446-472): pull the
intrinsics values `[0..3]` and the point position `[0..2]` out of the
observation data point as constants, create the cost function from them, and
bind exactly the extrinsics and target-pose blocks as variables. -/
def mkResidual (v : Nat → Nat → Int) (odp : ObservationDataPoint) : Residual :=
  { image_x := odp.image_x
    image_y := odp.image_y
    focal_length_x := deref v odp.camera_intrinsics 0
    focal_length_y := deref v odp.camera_intrinsics 1
    center_pnt_x := deref v odp.camera_intrinsics 2
    center_pnt_y := deref v odp.camera_intrinsics 3
    point_x := deref v odp.point_position 0
    point_y := deref v odp.point_position 1
    point_z := deref v odp.point_position 2
    parameterBlocks := [odp.camera_extrinsics, odp.target_pose] }

/-- The inner `BOOST_FOREACH` of `runOptimization` (source lines 424-474): one
residual per observation data point, in list order. -/
def addResiduals (v : Nat → Nat → Int) : List ObservationDataPoint → List Residual
  | [] => []
  | odp :: rest => mkResidual v odp :: addResiduals v rest

/-- Result of `runOptimization`: the residuals submitted to `problem_` and the
returned boolean. -/
structure OptResult where
  residuals : List Residual
  result : Bool
deriving DecidableEq, Repr

/-- `CalibrationJob::runOptimization` (source lines 416-501).  The outer
`BOOST_FOREACH` over `observation_data_point_list.items` (line 420) contains an
inner `BOOST_FOREACH` over the same list (line 424) and then a `return true`
(line 498) still inside the outer loop body, so when the list is nonempty the
outer loop's first iteration runs the inner loop over the entire list and
returns; when the list is empty the loop body never runs and line 500 returns
`true`.  The `ceres::Solve` call at line 495 is commented out in the source, so
the `solve` argument is never applied and the options and summary set up at
lines 489-494 are unused. -/
def runOptimization (solve : SolverOptions → List Residual → SolverSummary)
    (v : Nat → Nat → Int) (items : List ObservationDataPoint) : OptResult :=
  match items with
  | [] => { residuals := [], result := true }
  | _ :: _ => { residuals := addResiduals v items, result := true }

/-- `CalibrationJob::run` (source lines 32-36): calls `runObservations()` and
`runOptimization()`, discards both boolean results, and — being a `bool`
function with no return statement — falls off the end, so its returned value is
undefined; that undefined value is modelled as `none`.  When `runObservations`
never terminates, `run` never terminates either (`none` as well). -/
def CalibrationJobRun (solve : SolverOptions → List Residual → SolverSummary)
    (v : Nat → Nat → Int) (scene_list : List ObservationScene) (fuel : Nat) : Option Bool :=
  match runObservationsFuel scene_list fuel with
  | none => none
  | some r =>
      let _ := runOptimization solve v r.2
      none

/-! ### Job definition loading (`CalibrationJob::load`, lines 141-413) -/

/-- The fate of one of the three input files of `load()`: the `ifstream` failed
to open, the yaml section threw a `ParserException`, or the document parsed to
`doc`. -/
inductive FileInput (α : Type) where
  | openFail : FileInput α
  | parseFail : FileInput α
  | parsed : α → FileInput α
deriving DecidableEq, Repr

/-- Whether the `ifstream` for this input opened (`!file.fail()`). -/
def fileOpened {α : Type} : FileInput α → Bool
  | FileInput.openFail => false
  | _ => true

/-- Whether the yaml section for this input ran without throwing. -/
def parseOk {α : Type} : FileInput α → Bool
  | FileInput.parsed _ => true
  | _ => false

/-- `CalibrationJob::load` (source lines 141-413), reduced to its
success/failure control flow: the three `ifstream.fail()` checks at lines
146-163 (camera, target, caljob, in that order, each returning `false`), then
the three `try`/`catch(YAML::ParserException)` sections (camera lines 171-260,
target lines 264-344, caljob lines 359-411, each returning `false` from its
`catch`), and finally `return true` at line 412. -/
def load {α β γ : Type} (camera_input_file : FileInput α) (target_input_file : FileInput β)
    (caljob_input_file : FileInput γ) : Bool :=
  if fileOpened camera_input_file = false then false
  else if fileOpened target_input_file = false then false
  else if fileOpened caljob_input_file = false then false
  else if parseOk camera_input_file = false then false
  else if parseOk target_input_file = false then false
  else if parseOk caljob_input_file = false then false
  else true

/-- One entry of the `static_targets` yaml sequence, with the fields the loop
at source lines 276-301 reads (its `points` sub-sequence already parsed to
`Point3d`s). -/
structure StaticTargetEntry where
  target_name : String
  target_rows : Nat
  target_cols : Nat
  angle_axis_ax : Int
  angle_axis_ay : Int
  angle_axis_az : Int
  position_x : Int
  position_y : Int
  position_z : Int
  num_points : Nat
  points : List Point3d
deriving DecidableEq, Repr

/-- One entry of the `moving_targets` yaml sequence, with the fields the loop
at source lines 311-335 reads. -/
structure MovingTargetEntry where
  target_name : String
  angle_axis_ax : Int
  angle_axis_ay : Int
  angle_axis_az : Int
  position_x : Int
  position_y : Int
  position_z : Int
  scene_id : Nat
  num_points : Nat
  points : List Point3d
deriving DecidableEq, Repr

/-- One iteration of the static-target loop body (source lines 278-299) acting
on the shared `temp_target` object: every field is overwritten from the entry,
except `pts`, to which the entry's points are appended by `push_back` without
clearing what earlier iterations put there. -/
def readStaticTargetEntry (t : Target) (e : StaticTargetEntry) : Target :=
  { t with
    target_name := e.target_name
    pattern_rows := e.target_rows
    pattern_cols := e.target_cols
    pose :=
      { ax := e.angle_axis_ax
        ay := e.angle_axis_ay
        az := e.angle_axis_az
        x := e.position_x
        y := e.position_y
        z := e.position_z }
    num_points := e.num_points
    pts := t.pts ++ e.points }

/-- One iteration of the moving-target loop body (source lines 313-333) acting
on the shared `temp_target` object.  Lines 314-316 read the yaml key
`angle_axis_ax` into both `pose.ax` and `pose.ay` and the key `angle_axis_ay`
into `pose.az`; the key `angle_axis_az` is never read.  `pts` accumulates by
`push_back` as in the static loop. -/
def readMovingTargetEntry (t : Target) (e : MovingTargetEntry) : Target :=
  { t with
    target_name := e.target_name
    pose :=
      { ax := e.angle_axis_ax
        ay := e.angle_axis_ax
        az := e.angle_axis_ay
        x := e.position_x
        y := e.position_y
        z := e.position_z }
    num_points := e.num_points
    pts := t.pts ++ e.points }

/-- State of one of the two target-reading loops of `load()`: the single
`Target` object that `make_shared<Target>()` allocated once before the loop
(source line 274 for static, line 308 for moving), and, for each
`addStaticTarget` / `addMovingTarget` call made so far, the pointer value it
was passed.  The sole allocation lives at address `0`, so a registration value
of `0` denotes a pointer to that shared object. -/
structure TargetLoadState where
  obj : Target
  regs : List Nat
deriving DecidableEq, Repr

/-- The static-target loop of `load()` (source lines 276-301): each iteration
mutates the shared object through the one pointer and then passes that pointer
to `ceres_blocks_.addStaticTarget`. -/
def loadStaticTargetsLoop : List StaticTargetEntry → TargetLoadState → TargetLoadState
  | [], st => st
  | e :: rest, st =>
      loadStaticTargetsLoop rest
        { obj := readStaticTargetEntry st.obj e, regs := st.regs ++ [0] }

/-- The `static_targets` section of `load()` (source lines 271-302):
`make_shared<Target>()` once, `is_moving = false`, then the loop over all
entries. -/
def loadStaticTargets (entries : List StaticTargetEntry) : TargetLoadState :=
  loadStaticTargetsLoop entries { obj := { is_moving := false }, regs := [] }

/-- The moving-target loop of `load()` (source lines 311-335); registrations
also carry the scene id passed to `addMovingTarget`. -/
def loadMovingTargetsLoop :
    List MovingTargetEntry → Target → List (Nat × Nat) → Target × List (Nat × Nat)
  | [], t, regs => (t, regs)
  | e :: rest, t, regs =>
      loadMovingTargetsLoop rest (readMovingTargetEntry t e) (regs ++ [(0, e.scene_id)])

/-- The `moving_targets` section of `load()` (source lines 305-336):
`make_shared<Target>()` once, `is_moving = true`, then the loop over all
entries. -/
def loadMovingTargets (entries : List MovingTargetEntry) : Target × List (Nat × Nat) :=
  loadMovingTargetsLoop entries { is_moving := true } []

/-! ### Helper lemmas -/

theorem addResiduals_eq_map (v : Nat → Nat → Int) (items : List ObservationDataPoint) :
    addResiduals v items = items.map (mkResidual v) := by
  induction items with
  | nil => rfl
  | cons odp rest ih => simp [addResiduals, ih]

theorem runOptimization_residuals (solve : SolverOptions → List Residual → SolverSummary)
    (v : Nat → Nat → Int) (items : List ObservationDataPoint) :
    (runOptimization solve v items).residuals = items.map (mkResidual v) := by
  cases items with
  | nil => rfl
  | cons odp rest => simp [runOptimization, addResiduals_eq_map]

theorem processObsList_snd_length (camera_name : String) (scene_id : Nat)
    (intrinsics extrinsics : Option Nat) (l : List Observation) :
    ∀ (blocks : CeresBlocks) (acc : List ObservationDataPoint),
    ((processObsList blocks acc camera_name scene_id intrinsics extrinsics l).2).length =
      acc.length + l.length := by
  induction l with
  | nil => intro blocks acc; rfl
  | cons observation rest ih =>
      intro blocks acc
      simp only [processObsList]
      rw [ih]
      simp
      omega

theorem runCamerasFuel_some_length (fuel scene_id : Nat) (cams : List Camera) :
    ∀ (blocks : CeresBlocks) (acc : List ObservationDataPoint)
      (r : CeresBlocks × List ObservationDataPoint),
    runCamerasFuel fuel scene_id cams blocks acc = some r →
    r.2.length = acc.length + (cams.map fun camera => camera.observations.length).sum := by
  induction cams with
  | nil =>
      intro blocks acc r h
      simp only [runCamerasFuel, Option.some.injEq] at h
      rw [← h]
      simp
  | cons camera rest ih =>
      intro blocks acc r h
      simp only [runCamerasFuel] at h
      split at h
      · have hlen := processObsList_snd_length camera.camera_name scene_id
          (processCamera blocks camera scene_id).2.1 (processCamera blocks camera scene_id).2.2
          camera.observations (processCamera blocks camera scene_id).1 acc
        have := ih _ _ _ h
        simp only [runCameraObservations] at this
        rw [this, hlen]
        simp
        omega
      · exact absurd h (by simp)

theorem runScenesFuel_some_length (fuel : Nat) (scene_list : List ObservationScene) :
    ∀ (blocks : CeresBlocks) (acc : List ObservationDataPoint)
      (r : CeresBlocks × List ObservationDataPoint),
    runScenesFuel fuel scene_list blocks acc = some r →
    r.2.length = acc.length +
      (scene_list.map fun scene =>
        (scene.cameras_in_scene.map fun camera => camera.observations.length).sum).sum := by
  induction scene_list with
  | nil =>
      intro blocks acc r h
      simp only [runScenesFuel, Option.some.injEq] at h
      rw [← h]
      simp
  | cons scene rest ih =>
      intro blocks acc r h
      simp only [runScenesFuel] at h
      split at h
      · exact absurd h (by simp)
      · rename_i r' hr'
        have h1 := runCamerasFuel_some_length fuel scene.scene_id scene.cameras_in_scene
          blocks acc r' hr'
        have h2 := ih _ _ _ h
        rw [h2, h1]
        simp
        omega

theorem allocTargetPoints_movingTargetPoses (n : String) :
    ∀ (ids : List Nat) (blocks : CeresBlocks),
    (allocTargetPoints n ids blocks).movingTargetPoses = blocks.movingTargetPoses := by
  intro ids
  induction ids with
  | nil => intro blocks; rfl
  | cons i rest ih => intro blocks; simp [allocTargetPoints, ih]

theorem allocTargetPoints_staticTargetPoses (n : String) :
    ∀ (ids : List Nat) (blocks : CeresBlocks),
    (allocTargetPoints n ids blocks).staticTargetPoses = blocks.staticTargetPoses := by
  intro ids
  induction ids with
  | nil => intro blocks; rfl
  | cons i rest ih => intro blocks; simp [allocTargetPoints, ih]

theorem allocTargetPoints_nextId (n : String) :
    ∀ (ids : List Nat) (blocks : CeresBlocks),
    (allocTargetPoints n ids blocks).nextId = blocks.nextId + ids.length := by
  intro ids
  induction ids with
  | nil => intro blocks; rfl
  | cons i rest ih => intro blocks; simp [allocTargetPoints, ih]; omega

theorem lookupByNameKey_allocTargetPoints_isSome (n : String) (pid : Nat) :
    ∀ (ids : List Nat) (blocks : CeresBlocks),
    (pid ∈ ids ∨ (lookupByNameKey blocks.targetPoints n pid).isSome = true) →
    (lookupByNameKey (allocTargetPoints n ids blocks).targetPoints n pid).isSome = true := by
  intro ids
  induction ids with
  | nil =>
      intro blocks h
      rcases h with h | h
      · exact absurd h (List.not_mem_nil pid)
      · simpa [allocTargetPoints] using h
  | cons i rest ih =>
      intro blocks h
      simp only [allocTargetPoints]
      apply ih
      rcases h with h | h
      · rcases List.mem_cons.mp h with rfl | h'
        · right; simp [lookupByNameKey]
        · left; exact h'
      · right
        simp only [lookupByNameKey]
        split
        · simp
        · exact h

theorem targetSeen_allocTargetPoints_mono (n : String) :
    ∀ (ids : List Nat) (blocks : CeresBlocks),
    targetSeen blocks n = true → targetSeen (allocTargetPoints n ids blocks) n = true := by
  intro ids
  induction ids with
  | nil => intro blocks h; exact h
  | cons i rest ih =>
      intro blocks _
      simp only [allocTargetPoints]
      apply ih
      simp [targetSeen]

theorem targetSeen_allocTargetPoints (n : String) (ids : List Nat) (blocks : CeresBlocks)
    (h : ids ≠ []) : targetSeen (allocTargetPoints n ids blocks) n = true := by
  cases ids with
  | nil => exact absurd rfl h
  | cons i rest =>
      simp only [allocTargetPoints]
      apply targetSeen_allocTargetPoints_mono
      simp [targetSeen]

theorem processObservation_moving (blocks : CeresBlocks) (s : Nat) (o : Observation)
    (hm : o.target.is_moving = true) :
    processObservation blocks s o =
      (addMovingTarget blocks o.target s,
       lookupByNameKey (addMovingTarget blocks o.target s).movingTargetPoses
         o.target.target_name s,
       lookupByNameKey (addMovingTarget blocks o.target s).targetPoints
         o.target.target_name o.point_id) := by
  simp [processObservation, hm, getMovingTargetPoseParameterBlock,
    getMovingTargetPointParameterBlock]

theorem addMovingTarget_fresh (blocks : CeresBlocks) (t : Target) (s : Nat)
    (h1 : lookupByNameKey blocks.movingTargetPoses t.target_name s = none)
    (h2 : targetSeen blocks t.target_name = false) :
    addMovingTarget blocks t s =
      allocTargetPoints t.target_name (List.range t.pts.length)
        { blocks with
          movingTargetPoses := (t.target_name, s, blocks.nextId) :: blocks.movingTargetPoses
          nextId := blocks.nextId + 1 } := by
  have h2' : targetSeen
      { blocks with
        movingTargetPoses := (t.target_name, s, blocks.nextId) :: blocks.movingTargetPoses
        nextId := blocks.nextId + 1 } t.target_name = false := by
    simpa [targetSeen] using h2
  simp [addMovingTarget, h1, h2']

theorem addMovingTarget_seen (blocks : CeresBlocks) (t : Target) (s : Nat)
    (h1 : lookupByNameKey blocks.movingTargetPoses t.target_name s = none)
    (h2 : targetSeen blocks t.target_name = true) :
    addMovingTarget blocks t s =
      { blocks with
        movingTargetPoses := (t.target_name, s, blocks.nextId) :: blocks.movingTargetPoses
        nextId := blocks.nextId + 1 } := by
  have h2' : targetSeen
      { blocks with
        movingTargetPoses := (t.target_name, s, blocks.nextId) :: blocks.movingTargetPoses
        nextId := blocks.nextId + 1 } t.target_name = true := by
    simpa [targetSeen] using h2
  simp [addMovingTarget, h1, h2']

theorem observationsDoneWait_false {done : Nat → Bool} (hd : ∀ k, done k = false) :
    ∀ (fuel k : Nat), observationsDoneWait done k fuel = false := by
  intro fuel
  induction fuel with
  | zero => intro k; rfl
  | succ m ih => intro k; simp [observationsDoneWait, hd k, ih]

theorem runCamerasFuel_hang {camera : Camera}
    (hd : ∀ k, camera.observationsDone k = false) :
    ∀ (cams : List Camera), camera ∈ cams →
    ∀ (fuel scene_id : Nat) (blocks : CeresBlocks) (acc : List ObservationDataPoint),
    runCamerasFuel fuel scene_id cams blocks acc = none := by
  intro cams
  induction cams with
  | nil => intro h; exact absurd h (List.not_mem_nil camera)
  | cons c rest ih =>
      intro hmem fuel scene_id blocks acc
      rcases List.mem_cons.mp hmem with rfl | hmem'
      · simp [runCamerasFuel, observationsDoneWait_false hd]
      · simp only [runCamerasFuel]
        split
        · exact ih hmem' fuel scene_id _ _
        · rfl

theorem runScenesFuel_hang {scene : ObservationScene} {camera : Camera}
    (hc : camera ∈ scene.cameras_in_scene)
    (hd : ∀ k, camera.observationsDone k = false) :
    ∀ (scene_list : List ObservationScene), scene ∈ scene_list →
    ∀ (fuel : Nat) (blocks : CeresBlocks) (acc : List ObservationDataPoint),
    runScenesFuel fuel scene_list blocks acc = none := by
  intro scene_list
  induction scene_list with
  | nil => intro h; exact absurd h (List.not_mem_nil scene)
  | cons s rest ih =>
      intro hmem fuel blocks acc
      rcases List.mem_cons.mp hmem with rfl | hmem'
      · simp only [runScenesFuel]
        rw [runCamerasFuel_hang hd scene.cameras_in_scene hc]
      · simp only [runScenesFuel]
        split
        · rfl
        · exact ih hmem' fuel _ _

theorem loadStaticTargetsLoop_regs (entries : List StaticTargetEntry) :
    ∀ (st : TargetLoadState),
    (loadStaticTargetsLoop entries st).regs = st.regs ++ List.replicate entries.length 0 := by
  induction entries with
  | nil => intro st; simp [loadStaticTargetsLoop]
  | cons e rest ih =>
      intro st
      simp [loadStaticTargetsLoop, ih, List.replicate_succ]

theorem loadStaticTargetsLoop_pts (entries : List StaticTargetEntry) :
    ∀ (st : TargetLoadState),
    (loadStaticTargetsLoop entries st).obj.pts =
      st.obj.pts ++ (entries.map fun e => e.points).flatten := by
  induction entries with
  | nil => intro st; simp [loadStaticTargetsLoop]
  | cons e rest ih =>
      intro st
      simp [loadStaticTargetsLoop, ih, readStaticTargetEntry]

theorem loadStaticTargetsLoop_name (entries : List StaticTargetEntry) :
    ∀ (st : TargetLoadState) (e : StaticTargetEntry), entries.getLast? = some e →
    (loadStaticTargetsLoop entries st).obj.target_name = e.target_name := by
  induction entries with
  | nil => intro st e h; exact absurd h (by simp)
  | cons e' rest ih =>
      intro st e h
      cases rest with
      | nil =>
          simp only [List.getLast?_singleton, Option.some.injEq] at h
          subst h
          rfl
      | cons r rs =>
          rw [List.getLast?_cons_cons] at h
          exact ih _ e h

theorem loadMovingTargetsLoop_regs (entries : List MovingTargetEntry) :
    ∀ (t : Target) (regs : List (Nat × Nat)),
    (loadMovingTargetsLoop entries t regs).2 =
      regs ++ entries.map fun e => ((0 : Nat), e.scene_id) := by
  induction entries with
  | nil => intro t regs; simp [loadMovingTargetsLoop]
  | cons e rest ih =>
      intro t regs
      simp [loadMovingTargetsLoop, ih]

theorem loadMovingTargetsLoop_pts (entries : List MovingTargetEntry) :
    ∀ (t : Target) (regs : List (Nat × Nat)),
    (loadMovingTargetsLoop entries t regs).1.pts =
      t.pts ++ (entries.map fun e => e.points).flatten := by
  induction entries with
  | nil => intro t regs; simp [loadMovingTargetsLoop]
  | cons e rest ih =>
      intro t regs
      simp [loadMovingTargetsLoop, ih, readMovingTargetEntry]

theorem loadMovingTargetsLoop_name (entries : List MovingTargetEntry) :
    ∀ (t : Target) (regs : List (Nat × Nat)) (e : MovingTargetEntry),
    entries.getLast? = some e →
    (loadMovingTargetsLoop entries t regs).1.target_name = e.target_name := by
  induction entries with
  | nil => intro t regs e h; exact absurd h (by simp)
  | cons e' rest ih =>
      intro t regs e h
      cases rest with
      | nil =>
          simp only [List.getLast?_singleton, Option.some.injEq] at h
          subst h
          rfl
      | cons r rs =>
          rw [List.getLast?_cons_cons] at h
          exact ih _ _ e h

/-! ### Claim theorems -/

/-- Claim C1: for every ObservationDataPoint in the run-wide list,
`runOptimization` constructs and submits exactly one residual: the submitted
residual list is the image of the data-point list under the per-point residual
construction (no duplication, no omission, order preserved), and when the data
points were collected by `runObservations` from `N` raw observations across all
scenes, exactly `N` residuals are submitted. -/
theorem claim_c1 (solve : SolverOptions → List Residual → SolverSummary)
    (v : Nat → Nat → Int) (scene_list : List ObservationScene) (fuel : Nat)
    (blocks : CeresBlocks) (odps : List ObservationDataPoint)
    (h : runObservationsFuel scene_list fuel = some (blocks, odps)) :
    (runOptimization solve v odps).residuals = odps.map (mkResidual v) ∧
    (runOptimization solve v odps).residuals.length = totalObservations scene_list := by
  have hres := runOptimization_residuals solve v odps
  have hlen := runScenesFuel_some_length fuel scene_list clearCamerasTargets [] (blocks, odps) h
  refine ⟨hres, ?_⟩
  rw [hres, List.length_map]
  simpa [totalObservations] using hlen

/-- A concrete moving camera used to instantiate claims. -/
def wMovingCamera : Camera :=
  { camera_name := "mc"
    is_moving := true
    observationsDone := fun _ => true
    observations := [] }

/-- Claim C2: when `runObservations` processes a camera (starting from the
registry that `clearCamerasTargets` freshly reset), the intrinsics block is
looked up keyed by camera name alone while the extrinsics block is keyed by
(name, scene id) for a moving camera and by name alone for a static one: for a
moving camera registered in two distinct scenes both lookups succeed, the two
extrinsics lookups yield distinct blocks, and the intrinsics lookup yields the
same block in both scenes; for a static camera the processing does not depend
on the scene id at all. -/
theorem claim_c2 (camera : Camera) (hm : camera.is_moving = true) (s1 s2 : Nat)
    (hs : s1 ≠ s2) :
    ((processCamera clearCamerasTargets camera s1).2.1).isSome = true ∧
    (processCamera clearCamerasTargets camera s1).2.1 =
      (processCamera (processCamera clearCamerasTargets camera s1).1 camera s2).2.1 ∧
    ((processCamera clearCamerasTargets camera s1).2.2).isSome = true ∧
    ((processCamera (processCamera clearCamerasTargets camera s1).1 camera s2).2.2).isSome
      = true ∧
    (processCamera clearCamerasTargets camera s1).2.2 ≠
      (processCamera (processCamera clearCamerasTargets camera s1).1 camera s2).2.2 ∧
    (∀ (blocks : CeresBlocks) (c : Camera) (s s' : Nat), c.is_moving = false →
      processCamera blocks c s = processCamera blocks c s') := by
  have h1 : processCamera clearCamerasTargets camera s1 =
      ({ intrinsics := [(camera.camera_name, 0)]
         staticCameraExtrinsics := []
         movingCameraExtrinsics := [(camera.camera_name, s1, 1)]
         staticTargetPoses := []
         movingTargetPoses := []
         targetPoints := []
         nextId := 2 }, some 0, some 1) := by
    simp [processCamera, hm, addMovingCamera, clearCamerasTargets, lookupByName,
      lookupByNameKey, getMovingCameraParameterBlockIntrinsics,
      getMovingCameraParameterBlockExtrinsics]
  have h2 : processCamera (processCamera clearCamerasTargets camera s1).1 camera s2 =
      ({ intrinsics := [(camera.camera_name, 0)]
         staticCameraExtrinsics := []
         movingCameraExtrinsics :=
           [(camera.camera_name, s2, 2), (camera.camera_name, s1, 1)]
         staticTargetPoses := []
         movingTargetPoses := []
         targetPoints := []
         nextId := 3 }, some 0, some 2) := by
    rw [h1]
    simp [processCamera, hm, addMovingCamera, lookupByName, lookupByNameKey,
      getMovingCameraParameterBlockIntrinsics, getMovingCameraParameterBlockExtrinsics, hs]
  rw [h2, h1]
  refine ⟨rfl, rfl, rfl, rfl, by simp, ?_⟩
  intro blocks c s s' h
  simp [processCamera, h]

theorem claim_c2_witness :
    ((processCamera clearCamerasTargets wMovingCamera 1).2.1).isSome = true ∧
    (processCamera clearCamerasTargets wMovingCamera 1).2.1 =
      (processCamera (processCamera clearCamerasTargets wMovingCamera 1).1
        wMovingCamera 2).2.1 ∧
    ((processCamera clearCamerasTargets wMovingCamera 1).2.2).isSome = true ∧
    ((processCamera (processCamera clearCamerasTargets wMovingCamera 1).1
        wMovingCamera 2).2.2).isSome = true ∧
    (processCamera clearCamerasTargets wMovingCamera 1).2.2 ≠
      (processCamera (processCamera clearCamerasTargets wMovingCamera 1).1
        wMovingCamera 2).2.2 ∧
    (∀ (blocks : CeresBlocks) (c : Camera) (s s' : Nat), c.is_moving = false →
      processCamera blocks c s = processCamera blocks c s') :=
  claim_c2 wMovingCamera rfl 1 2 (by decide)

/-- A concrete moving target with four points, used to instantiate claims. -/
def wMovingTarget : Target :=
  { target_name := "mt"
    is_moving := true
    pts := [{ x := 0, y := 0, z := 0 }, { x := 1, y := 1, z := 1 },
            { x := 2, y := 2, z := 2 }, { x := 3, y := 3, z := 3 }] }

/-- A concrete observation of point id 3 of `wMovingTarget`. -/
def wMovingObservation : Observation :=
  { target := wMovingTarget, point_id := 3, image_loc_x := 7, image_loc_y := 8 }

/-- Claim C3: when `runObservations` processes a target observation (starting
from the freshly cleared registry), the point-position block is looked up keyed
by (target name, point id) only — never by scene id — for both static and
moving targets: for a moving target observed in two distinct scenes the same
point block is obtained in both scenes (and the lookup succeeds), while the
pose block is keyed by (name, scene id) and the two scenes yield distinct pose
blocks; for a static target the processing does not depend on the scene id at
all. -/
theorem claim_c3 (observation : Observation) (hm : observation.target.is_moving = true)
    (hp : observation.point_id < observation.target.pts.length) (s1 s2 : Nat)
    (hs : s1 ≠ s2) :
    (processObservation clearCamerasTargets s1 observation).2.2 =
      (processObservation (processObservation clearCamerasTargets s1 observation).1 s2
        observation).2.2 ∧
    ((processObservation clearCamerasTargets s1 observation).2.2).isSome = true ∧
    ((processObservation clearCamerasTargets s1 observation).2.1).isSome = true ∧
    ((processObservation (processObservation clearCamerasTargets s1 observation).1 s2
        observation).2.1).isSome = true ∧
    (processObservation clearCamerasTargets s1 observation).2.1 ≠
      (processObservation (processObservation clearCamerasTargets s1 observation).1 s2
        observation).2.1 ∧
    (∀ (blocks : CeresBlocks) (s s' : Nat) (o : Observation), o.target.is_moving = false →
      processObservation blocks s o = processObservation blocks s' o) := by
  have hAdd1 : addMovingTarget clearCamerasTargets observation.target s1 =
      allocTargetPoints observation.target.target_name
        (List.range observation.target.pts.length)
        { intrinsics := []
          staticCameraExtrinsics := []
          movingCameraExtrinsics := []
          staticTargetPoses := []
          movingTargetPoses := [(observation.target.target_name, s1, 0)]
          targetPoints := []
          nextId := 1 } := by
    rw [addMovingTarget_fresh clearCamerasTargets observation.target s1 rfl rfl]
    rfl
  have hrange : List.range observation.target.pts.length ≠ [] := by
    have : observation.target.pts.length ≠ 0 := by omega
    simp [List.range_eq_nil, this]
  have f1 : (addMovingTarget clearCamerasTargets observation.target s1).movingTargetPoses =
      [(observation.target.target_name, s1, 0)] := by
    rw [hAdd1, allocTargetPoints_movingTargetPoses]
  have f2 : (addMovingTarget clearCamerasTargets observation.target s1).nextId =
      1 + observation.target.pts.length := by
    rw [hAdd1, allocTargetPoints_nextId]
    simp
  have fseen : targetSeen (addMovingTarget clearCamerasTargets observation.target s1)
      observation.target.target_name = true := by
    rw [hAdd1]
    exact targetSeen_allocTargetPoints _ _ _ hrange
  have fpnt : (lookupByNameKey
      (addMovingTarget clearCamerasTargets observation.target s1).targetPoints
      observation.target.target_name observation.point_id).isSome = true := by
    rw [hAdd1]
    exact lookupByNameKey_allocTargetPoints_isSome _ _ _ _
      (Or.inl (List.mem_range.mpr hp))
  have e3 : lookupByNameKey
      (addMovingTarget clearCamerasTargets observation.target s1).movingTargetPoses
      observation.target.target_name s2 = none := by
    rw [f1]
    simp [lookupByNameKey, hs]
  have hAdd2 : addMovingTarget (addMovingTarget clearCamerasTargets observation.target s1)
      observation.target s2 =
      { addMovingTarget clearCamerasTargets observation.target s1 with
        movingTargetPoses :=
          (observation.target.target_name, s2,
            (addMovingTarget clearCamerasTargets observation.target s1).nextId) ::
          (addMovingTarget clearCamerasTargets observation.target s1).movingTargetPoses
        nextId := (addMovingTarget clearCamerasTargets observation.target s1).nextId + 1 } :=
    addMovingTarget_seen _ _ _ e3 fseen
  have hB := processObservation_moving clearCamerasTargets s1 observation hm
  have pose1 : lookupByNameKey
      (addMovingTarget clearCamerasTargets observation.target s1).movingTargetPoses
      observation.target.target_name s1 = some 0 := by
    rw [f1]
    simp [lookupByNameKey]
  have hB' : processObservation clearCamerasTargets s1 observation =
      (addMovingTarget clearCamerasTargets observation.target s1, some 0,
       lookupByNameKey
         (addMovingTarget clearCamerasTargets observation.target s1).targetPoints
         observation.target.target_name observation.point_id) := by
    rw [hB, pose1]
  have hC0 := processObservation_moving
    (addMovingTarget clearCamerasTargets observation.target s1) s2 observation hm
  have hC' : processObservation (processObservation clearCamerasTargets s1 observation).1 s2
      observation =
      (addMovingTarget (addMovingTarget clearCamerasTargets observation.target s1)
         observation.target s2,
       some (addMovingTarget clearCamerasTargets observation.target s1).nextId,
       lookupByNameKey
         (addMovingTarget clearCamerasTargets observation.target s1).targetPoints
         observation.target.target_name observation.point_id) := by
    rw [hB']
    show processObservation (addMovingTarget clearCamerasTargets observation.target s1) s2
      observation = _
    rw [hC0, hAdd2]
    simp [lookupByNameKey]
  rw [hC', hB']
  refine ⟨rfl, fpnt, rfl, rfl, ?_, ?_⟩
  · have hne : (0 : Nat) ≠ 1 + observation.target.pts.length := by omega
    simp only [f2]
    simp [hne]
  · intro blocks s s' o h
    simp [processObservation, h]

theorem claim_c3_witness :
    (processObservation clearCamerasTargets 1 wMovingObservation).2.2 =
      (processObservation (processObservation clearCamerasTargets 1 wMovingObservation).1 2
        wMovingObservation).2.2 ∧
    ((processObservation clearCamerasTargets 1 wMovingObservation).2.2).isSome = true ∧
    ((processObservation clearCamerasTargets 1 wMovingObservation).2.1).isSome = true ∧
    ((processObservation (processObservation clearCamerasTargets 1 wMovingObservation).1 2
        wMovingObservation).2.1).isSome = true ∧
    (processObservation clearCamerasTargets 1 wMovingObservation).2.1 ≠
      (processObservation (processObservation clearCamerasTargets 1 wMovingObservation).1 2
        wMovingObservation).2.1 ∧
    (∀ (blocks : CeresBlocks) (s s' : Nat) (o : Observation), o.target.is_moving = false →
      processObservation blocks s o = processObservation blocks s' o) :=
  claim_c3 wMovingObservation rfl (by decide) 1 2 (by decide)

/-- Claim C4, amended: the capture-completion wait of `runObservations` (source
lines 90-91) is an unbounded busy-wait with no timeout.  If any camera of any
scene never reports `observationsDone()`, the run never terminates — modelled
by `runObservationsFuel` returning `none` for every fuel — so no
`CaptureTimeoutError` is reported, no ObservationDataPoints are produced at
all, and subsequent scenes are not processed. -/
theorem claim_c4 (scene_list : List ObservationScene) (fuel : Nat)
    (scene : ObservationScene) (camera : Camera)
    (hsc : scene ∈ scene_list) (hc : camera ∈ scene.cameras_in_scene)
    (hd : ∀ k, camera.observationsDone k = false) :
    runObservationsFuel scene_list fuel = none :=
  runScenesFuel_hang hc hd scene_list hsc fuel clearCamerasTargets []

/-- A camera whose observer never reports capture completion. -/
def hangCamera : Camera :=
  { camera_name := "c1"
    is_moving := false
    observationsDone := fun _ => false
    observations := [] }

/-- A camera in a subsequent scene whose observer completes at once and returns
one observation. -/
def laterCamera : Camera :=
  { camera_name := "c2"
    is_moving := false
    observationsDone := fun _ => true
    observations :=
      [{ target := { target_name := "t2", is_moving := false,
                     pts := [{ x := 0, y := 0, z := 0 }] }
         point_id := 0
         image_loc_x := 5
         image_loc_y := 6 }] }

/-- A run plan whose first scene's camera never completes capture, followed by
a healthy scene. -/
def hangScenes : List ObservationScene :=
  [{ scene_id := 1, cameras_in_scene := [hangCamera] },
   { scene_id := 2, cameras_in_scene := [laterCamera] }]

theorem claim_c4_counterexample :
    ¬ ∃ (fuel : Nat) (r : CeresBlocks × List ObservationDataPoint),
        runObservationsFuel hangScenes fuel = some r := by
  rintro ⟨fuel, r, h⟩
  rw [runObservationsFuel,
    @runScenesFuel_hang { scene_id := 1, cameras_in_scene := [hangCamera] } hangCamera
    (List.mem_singleton.mpr rfl) (fun _ => rfl) hangScenes
    (List.mem_cons_self _ _) fuel clearCamerasTargets []] at h
  exact Option.noConfusion h

theorem claim_c4_witness : runObservationsFuel hangScenes 5 = none :=
  claim_c4 hangScenes 5 { scene_id := 1, cameras_in_scene := [hangCamera] } hangCamera
    (List.mem_cons_self _ _) (List.mem_singleton.mpr rfl) (fun _ => rfl)

/-- A concrete static target with two points, used to instantiate claims. -/
def wTarget : Target :=
  { target_name := "t"
    is_moving := false
    pts := [{ x := 0, y := 0, z := 0 }, { x := 1, y := 0, z := 0 }] }

/-- A concrete static camera whose observer finishes immediately and reports
two observations of `wTarget`. -/
def wCamera : Camera :=
  { camera_name := "a"
    is_moving := false
    observationsDone := fun _ => true
    observations :=
      [{ target := wTarget, point_id := 0, image_loc_x := 10, image_loc_y := 20 },
       { target := wTarget, point_id := 1, image_loc_x := 30, image_loc_y := 40 }] }

/-- A concrete single-scene run plan for `wCamera`. -/
def wScenes : List ObservationScene := [{ scene_id := 1, cameras_in_scene := [wCamera] }]

/-- The result of collecting observations on `wScenes`. -/
def wRun : CeresBlocks × List ObservationDataPoint :=
  (runObservationsFuel wScenes 1).getD (clearCamerasTargets, [])

/-- A concrete external solver that always reports non-convergence. -/
def wSolve : SolverOptions → List Residual → SolverSummary :=
  fun _ _ => { converged := false }

/-- A concrete block-arena valuation. -/
def wVals : Nat → Nat → Int := fun _ _ => 0

theorem claim_c1_witness :
    (runOptimization wSolve wVals wRun.2).residuals = wRun.2.map (mkResidual wVals) ∧
    (runOptimization wSolve wVals wRun.2).residuals.length = totalObservations wScenes :=
  claim_c1 wSolve wVals wScenes 1 wRun.1 wRun.2 (by decide)

/-- Claim C5 (code divergence): `runOptimization` never applies the external
solver — the `ceres::Solve` call at source line 495 is commented out — so its
outcome is the same for every solver behaviour and it reports success
unconditionally, even for a solver that would report non-convergence. -/
theorem claim_c5 (solve solve' : SolverOptions → List Residual → SolverSummary)
    (v : Nat → Nat → Int) (items : List ObservationDataPoint) :
    runOptimization solve v items = runOptimization solve' v items ∧
    (runOptimization solve v items).result = true := by
  cases items with
  | nil => exact ⟨rfl, rfl⟩
  | cons odp rest => exact ⟨rfl, rfl⟩

/-- Claim C6 (code divergence): `CalibrationJob::run` calls `runObservations()`
and `runOptimization()` but discards both boolean results and has no return
statement, so its returned value is undefined (modelled as `none`); in
particular it does not return the conjunction of the two phase outcomes. -/
theorem claim_c6 (solve : SolverOptions → List Residual → SolverSummary)
    (v : Nat → Nat → Int) (scene_list : List ObservationScene) (fuel : Nat) :
    CalibrationJobRun solve v scene_list fuel = none := by
  cases h : runObservationsFuel scene_list fuel <;> simp [CalibrationJobRun, h]

/-- Claim C7: `load()` fails fast, returning `false` as soon as one of the
three required input sources cannot be opened or parsed, and returns `true`
exactly when all three open and parse. -/
theorem claim_c7 {α β γ : Type} (camera_input_file : FileInput α)
    (target_input_file : FileInput β) (caljob_input_file : FileInput γ) :
    load camera_input_file target_input_file caljob_input_file =
      (parseOk camera_input_file && parseOk target_input_file && parseOk caljob_input_file) := by
  cases camera_input_file <;> cases target_input_file <;> cases caljob_input_file <;> rfl

/-- Claim C8: every residual submitted by `runOptimization` binds exactly the
camera-extrinsics and target-pose parameter blocks as solver variables, with
the intrinsics values (`[0..3]` of the intrinsics block) and the point position
(`[0..2]` of the point block) baked into the cost function as fixed constants,
alongside the observed pixel — variant 3 of the five variants enumerated in the
source comments. -/
theorem claim_c8 (solve : SolverOptions → List Residual → SolverSummary)
    (v : Nat → Nat → Int) (items : List ObservationDataPoint) (r : Residual)
    (hr : r ∈ (runOptimization solve v items).residuals) :
    ∃ odp ∈ items,
      r.parameterBlocks = [odp.camera_extrinsics, odp.target_pose] ∧
      r.focal_length_x = deref v odp.camera_intrinsics 0 ∧
      r.focal_length_y = deref v odp.camera_intrinsics 1 ∧
      r.center_pnt_x = deref v odp.camera_intrinsics 2 ∧
      r.center_pnt_y = deref v odp.camera_intrinsics 3 ∧
      r.point_x = deref v odp.point_position 0 ∧
      r.point_y = deref v odp.point_position 1 ∧
      r.point_z = deref v odp.point_position 2 ∧
      r.image_x = odp.image_x ∧ r.image_y = odp.image_y := by
  rw [runOptimization_residuals] at hr
  rcases List.mem_map.mp hr with ⟨odp, hodp, rfl⟩
  exact ⟨odp, hodp, rfl, rfl, rfl, rfl, rfl, rfl, rfl, rfl, rfl, rfl⟩

/-- A concrete observation data point with all four block handles resolved. -/
def wOdp : ObservationDataPoint :=
  { camera_name := "a"
    target_name := "t"
    scene_id := 1
    camera_intrinsics := some 0
    camera_extrinsics := some 1
    point_id := 0
    target_pose := some 2
    point_position := some 3
    image_x := 10
    image_y := 20 }

theorem claim_c8_witness :
    ∃ odp ∈ [wOdp],
      (mkResidual wVals wOdp).parameterBlocks = [odp.camera_extrinsics, odp.target_pose] ∧
      (mkResidual wVals wOdp).focal_length_x = deref wVals odp.camera_intrinsics 0 ∧
      (mkResidual wVals wOdp).focal_length_y = deref wVals odp.camera_intrinsics 1 ∧
      (mkResidual wVals wOdp).center_pnt_x = deref wVals odp.camera_intrinsics 2 ∧
      (mkResidual wVals wOdp).center_pnt_y = deref wVals odp.camera_intrinsics 3 ∧
      (mkResidual wVals wOdp).point_x = deref wVals odp.point_position 0 ∧
      (mkResidual wVals wOdp).point_y = deref wVals odp.point_position 1 ∧
      (mkResidual wVals wOdp).point_z = deref wVals odp.point_position 2 ∧
      (mkResidual wVals wOdp).image_x = odp.image_x ∧
      (mkResidual wVals wOdp).image_y = odp.image_y :=
  claim_c8 wSolve wVals [wOdp] (mkResidual wVals wOdp) (by decide)

/-- Claim C9: within a single `load()` call, all static targets are parsed
into one shared `Target` object allocated once before the loop (and all moving
targets into one other shared object): every `addStaticTarget` (resp.
`addMovingTarget`) call is passed the same pointer (the sole allocation, at
address `0`), each iteration overwrites that object's fields and appends its
parsed points to the same accumulated point list, so after loading the entries
the one object holds the last-parsed name and the concatenation of all the
entries' point lists. -/
theorem claim_c9 (ses : List StaticTargetEntry) (mes : List MovingTargetEntry) :
    (loadStaticTargets ses).regs = List.replicate ses.length 0 ∧
    (loadStaticTargets ses).obj.pts = (ses.map fun e => e.points).flatten ∧
    (∀ e, ses.getLast? = some e →
      (loadStaticTargets ses).obj.target_name = e.target_name) ∧
    (loadMovingTargets mes).2 = mes.map (fun e => ((0 : Nat), e.scene_id)) ∧
    (loadMovingTargets mes).1.pts = (mes.map fun e => e.points).flatten ∧
    (∀ e, mes.getLast? = some e →
      (loadMovingTargets mes).1.target_name = e.target_name) := by
  refine ⟨?_, ?_, ?_, ?_, ?_, ?_⟩
  · rw [loadStaticTargets, loadStaticTargetsLoop_regs]
    rfl
  · rw [loadStaticTargets, loadStaticTargetsLoop_pts]
    rfl
  · intro e h
    exact loadStaticTargetsLoop_name ses _ e h
  · rw [loadMovingTargets, loadMovingTargetsLoop_regs]
    rfl
  · rw [loadMovingTargets, loadMovingTargetsLoop_pts]
    rfl
  · intro e h
    exact loadMovingTargetsLoop_name mes _ _ e h

/-- Two concrete static-target yaml entries. -/
def wStaticEntryA : StaticTargetEntry :=
  { target_name := "s1", target_rows := 2, target_cols := 2
    angle_axis_ax := 0, angle_axis_ay := 0, angle_axis_az := 0
    position_x := 0, position_y := 0, position_z := 0
    num_points := 1, points := [{ x := 1, y := 1, z := 1 }] }

def wStaticEntryB : StaticTargetEntry :=
  { target_name := "s2", target_rows := 2, target_cols := 2
    angle_axis_ax := 0, angle_axis_ay := 0, angle_axis_az := 0
    position_x := 0, position_y := 0, position_z := 0
    num_points := 1, points := [{ x := 2, y := 2, z := 2 }] }

/-- Two concrete moving-target yaml entries. -/
def wMovingEntryA : MovingTargetEntry :=
  { target_name := "m1"
    angle_axis_ax := 0, angle_axis_ay := 0, angle_axis_az := 0
    position_x := 0, position_y := 0, position_z := 0
    scene_id := 1, num_points := 1, points := [{ x := 3, y := 3, z := 3 }] }

def wMovingEntryB : MovingTargetEntry :=
  { target_name := "m2"
    angle_axis_ax := 0, angle_axis_ay := 0, angle_axis_az := 0
    position_x := 0, position_y := 0, position_z := 0
    scene_id := 2, num_points := 1, points := [{ x := 4, y := 4, z := 4 }] }

theorem claim_c9_witness :
    (loadStaticTargets [wStaticEntryA, wStaticEntryB]).obj.target_name =
      wStaticEntryB.target_name ∧
    (loadMovingTargets [wMovingEntryA, wMovingEntryB]).1.target_name =
      wMovingEntryB.target_name :=
  ⟨(claim_c9 [wStaticEntryA, wStaticEntryB] [wMovingEntryA, wMovingEntryB]).2.2.1
      wStaticEntryB (by decide),
   (claim_c9 [wStaticEntryA, wStaticEntryB] [wMovingEntryA, wMovingEntryB]).2.2.2.2.2
      wMovingEntryB (by decide)⟩

/-- Claim C10: for every moving target parsed by `load()`, the yaml value of
key `angle_axis_ax` is stored into both `pose.ax` and `pose.ay`, the value of
key `angle_axis_ay` is stored into `pose.az`, and the key `angle_axis_az` is
never read (the parsed target is unchanged under any value of that key) — so
the stored pose rotation does not reproduce the three angle-axis components of
the definition. -/
theorem claim_c10 (t : Target) (e : MovingTargetEntry) :
    (readMovingTargetEntry t e).pose.ax = e.angle_axis_ax ∧
    (readMovingTargetEntry t e).pose.ay = e.angle_axis_ax ∧
    (readMovingTargetEntry t e).pose.az = e.angle_axis_ay ∧
    (∀ w : Int, readMovingTargetEntry t { e with angle_axis_az := w } = readMovingTargetEntry t e) := by
  exact ⟨rfl, rfl, rfl, fun w => rfl⟩

end IndustrialExtrinsicCal
